import Mathlib

/-!
Verification of `build/process_compat_config.py` (ConfigMerger).

The merger accumulates the child elements of each merged fragment under a
single `<config>` root, optionally detecting duplicate `id`/`name`
attributes, and serializes two views: the full merged tree (`write`) and a
device projection with metadata children stripped
(`strip_config_for_device` / `write_device_config`).

XML trees are embedded as a simple inductive of tag, attribute list and
child list; `ElementTree` file output is modelled by returning the root
element that would be serialized.  The Python methods mutate `self`; here
they are state-passing functions on a `ConfigMerger` record, and the write
operations return the (possibly updated) merger alongside the produced
document so that frame properties are expressible.

The copy of `process_compat_config.py` in this repository snapshot predates
conflict detection; the unit tests (`process-compat-config-test.py`)
exercise `ConfigMerger(detect_conflicts = ...)`, `write_errors_to` and the
aggregated write failure.  Those parts are modelled from the spec, and each
such definition is marked `Modelled from the spec:` in its doc comment.
-/

/-- An XML element as held by `xml.etree.ElementTree`: a tag, an ordered
attribute mapping (`attrib`), and a list of child elements. -/
inductive Element : Type where
  | mk : String → List (String × String) → List Element → Element

/-- The element's tag. -/
def Element.tag : Element → String
  | .mk t _ _ => t

/-- The element's attribute list, in document order. -/
def Element.attrib : Element → List (String × String)
  | .mk _ a _ => a

/-- The element's child elements, in document order. -/
def Element.children : Element → List Element
  | .mk _ _ c => c

/-- Python's `element.get(key)`: the value of attribute `key`, or `None`
when the attribute is absent. -/
def Element.get (e : Element) (key : String) : Option String :=
  (e.attrib.find? (fun p => p.1 = key)).map Prod.snd

/-- A dictionary lookup for the conflict maps, whose keys are the values
returned by `element.get` (`None` included, as in a Python dict). -/
def lookupSrc : List (Option String × String) → Option String → Option String
  | [], _ => none
  | p :: rest, k => if p.1 = k then some p.2 else lookupSrc rest k

/-- The merger state.  `records` are the children accumulated under the
`config` root (`self.tree.getroot()`), in insertion order.  The flag,
conflict maps (key to first source label), error counter and error sink
are modelled from the spec: they exist in the tested implementation but
not in the superseded copy under `build/process_compat_config.py`. -/
structure ConfigMerger : Type where
  detect_conflicts : Bool
  records : List Element
  changes_by_id : List (Option String × String)
  changes_by_name : List (Option String × String)
  errors : Nat
  error_sink : List String

/-- Construction: an empty `config` root; the conflict flag, the empty
conflict maps, the zero error counter and the empty error sink are
modelled from the spec. -/
def ConfigMerger.init (detect : Bool) : ConfigMerger :=
  { detect_conflicts := detect
    records := []
    changes_by_id := []
    changes_by_name := []
    errors := 0
    error_sink := [] }

/-- Modelled from the spec: the diagnostic line emitted for a duplicate
`id` (`%s` of a Python `None` prints `None`). -/
def showAttr : Option String → String
  | some s => s
  | none => "None"

/-- Modelled from the spec: `"ERROR: Duplicate definitions for compat change with ID <id>"`. -/
def dupIdMsg (i : Option String) : String :=
  "ERROR: Duplicate definitions for compat change with ID " ++ showAttr i

/-- Modelled from the spec: `"ERROR: Duplicate definitions for compat change with name <name>"`. -/
def dupNameMsg (n : Option String) : String :=
  "ERROR: Duplicate definitions for compat change with name " ++ showAttr n

/-- Modelled from the spec: the aggregation error message raised at write
time; it must report the total error count. -/
def aggregationMsg (n : Nat) : String :=
  "Failed to merge due to " ++ toString n ++ " errors"

/-- Modelled from the spec: the conflict bookkeeping performed for one
merged child when conflict detection is enabled.  Looks up `id` in the
id-map: if present, appends the ID diagnostic to the error sink and
increments the error counter, leaving the map entry untouched (first
occurrence wins); if absent, records `id -> source`.  The identical,
independent procedure follows for `name`.  With detection disabled this
is the identity. -/
def checkConflicts (source : String) (m : ConfigMerger) (child : Element) : ConfigMerger :=
  if m.detect_conflicts then
    let i := child.get "id"
    let n := child.get "name"
    let mA :=
      match lookupSrc m.changes_by_id i with
      | some _ =>
        { m with error_sink := m.error_sink ++ [dupIdMsg i], errors := m.errors + 1 }
      | none => { m with changes_by_id := m.changes_by_id ++ [(i, source)] }
    match lookupSrc mA.changes_by_name n with
    | some _ =>
      { mA with error_sink := mA.error_sink ++ [dupNameMsg n], errors := mA.errors + 1 }
    | none => { mA with changes_by_name := mA.changes_by_name ++ [(n, source)] }
  else m

/-- One iteration of the loop in `merge`: conflict bookkeeping (modelled
from the spec), then `self.tree.getroot().append(child)`. -/
def mergeChild (source : String) (m : ConfigMerger) (child : Element) : ConfigMerger :=
  let m1 := checkConflicts source m child
  { m1 with records := m1.records ++ [child] }

/-- A fragment input as handed to `ET.parse`: either a well-formed document
with a root element, or input on which parsing raises `ParseError`. -/
inductive XmlSource : Type where
  | wellFormed : Element → XmlSource
  | malformed : XmlSource

/-- The merge operation: `ET.parse` the fragment (raising on malformed
input before any state is touched), then append every child of its root
in document order, with conflict bookkeeping per child.  The `source`
label is used only in diagnostics. -/
def ConfigMerger.merge (m : ConfigMerger) (xmlFile : XmlSource) (source : String) :
    Except String ConfigMerger :=
  match xmlFile with
  | .malformed => .error "ParseError"
  | .wellFormed root => .ok (root.children.foldl (mergeChild source) m)

/-- Modelled from the spec: the fail-fast gate shared by the write
operations; with conflict detection enabled and a nonzero accumulated
error counter it raises the aggregation error, producing no output. -/
def ConfigMerger.write_check_errors (m : ConfigMerger) : Except String Unit :=
  if m.detect_conflicts && m.errors != 0 then .error (aggregationMsg m.errors)
  else .ok ()

/-- The write operation: after the conflict gate (modelled from the spec),
serializes the accumulated tree — the `config` root with the records as
its children.  The merger is returned unchanged alongside the document:
the Python method assigns to no field of `self`. -/
def ConfigMerger.write (m : ConfigMerger) : Except String (Element × ConfigMerger) :=
  match m.write_check_errors with
  | .error e => .error e
  | .ok _ => .ok (Element.mk "config" [] m.records, m)

/-- The device projection: a new tree whose root holds, for each record in
order, a fresh `compat-change` element carrying a copy of the record's
attributes and no children. -/
def ConfigMerger.strip_config_for_device (m : ConfigMerger) : Element :=
  Element.mk "config" []
    (m.records.map (fun change => Element.mk "compat-change" change.attrib []))

/-- The device write: the conflict gate (modelled from the spec), then the
device projection is serialized.  The merger is returned unchanged. -/
def ConfigMerger.write_device_config (m : ConfigMerger) : Except String (Element × ConfigMerger) :=
  match m.write_check_errors with
  | .error e => .error e
  | .ok _ => .ok (m.strip_config_for_device, m)

/-- A run of merges: the driver feeds the merger every input in order,
stopping at the first parse failure. -/
def mergeList (m : ConfigMerger) : List (XmlSource × String) → Except String ConfigMerger
  | [] => .ok m
  | (f, s) :: rest =>
    match m.merge f s with
    | .error e => .error e
    | .ok m2 => mergeList m2 rest

/-- The children of a list of fragments, flattened in merge-then-document
order, each paired with its fragment's source label. -/
def flatten (frags : List (Element × String)) : List (Element × String) :=
  (frags.map (fun p => p.1.children.map (fun c => (c, p.2)))).flatten

/-- Merging a flat list of (child, source) pairs, one `mergeChild` step
each; the normal form the fragment-level run reduces to. -/
def mergeFlat (m : ConfigMerger) : List (Element × String) → ConfigMerger
  | [] => m
  | (c, s) :: rest => mergeFlat (mergeChild s m c) rest

/-! Basic frame lemmas about one merge step. -/

theorem checkConflicts_records (s : String) (m : ConfigMerger) (c : Element) :
    (checkConflicts s m c).records = m.records := by
  unfold checkConflicts
  by_cases h : m.detect_conflicts
  · simp only [h, if_true]
    cases lookupSrc m.changes_by_id (c.get "id") <;>
      · dsimp only
        split <;> rfl
  · simp [h]

theorem checkConflicts_detect (s : String) (m : ConfigMerger) (c : Element) :
    (checkConflicts s m c).detect_conflicts = m.detect_conflicts := by
  unfold checkConflicts
  by_cases h : m.detect_conflicts
  · simp only [h, if_true]
    cases lookupSrc m.changes_by_id (c.get "id") <;>
      · dsimp only
        split <;> rfl
  · simp [h]

theorem checkConflicts_no_detect (s : String) (m : ConfigMerger) (c : Element)
    (h : m.detect_conflicts = false) : checkConflicts s m c = m := by
  unfold checkConflicts
  simp [h]

theorem mergeChild_records (s : String) (m : ConfigMerger) (c : Element) :
    (mergeChild s m c).records = m.records ++ [c] := by
  unfold mergeChild
  simp [checkConflicts_records]

theorem mergeChild_detect (s : String) (m : ConfigMerger) (c : Element) :
    (mergeChild s m c).detect_conflicts = m.detect_conflicts := by
  unfold mergeChild
  simp [checkConflicts_detect]

theorem mergeFlat_records (cs : List (Element × String)) (m : ConfigMerger) :
    (mergeFlat m cs).records = m.records ++ cs.map Prod.fst := by
  induction cs generalizing m with
  | nil => simp [mergeFlat]
  | cons p rest ih =>
    obtain ⟨c, s⟩ := p
    simp [mergeFlat, ih, mergeChild_records]

theorem mergeFlat_detect (cs : List (Element × String)) (m : ConfigMerger) :
    (mergeFlat m cs).detect_conflicts = m.detect_conflicts := by
  induction cs generalizing m with
  | nil => rfl
  | cons p rest ih =>
    obtain ⟨c, s⟩ := p
    simp [mergeFlat, ih, mergeChild_detect]

theorem foldl_mergeChild_eq_mergeFlat (cs : List Element) (s : String) (m : ConfigMerger) :
    cs.foldl (mergeChild s) m = mergeFlat m (cs.map (fun c => (c, s))) := by
  induction cs generalizing m with
  | nil => rfl
  | cons c rest ih => simp [mergeFlat, ih]

theorem mergeFlat_append (l1 l2 : List (Element × String)) (m : ConfigMerger) :
    mergeFlat m (l1 ++ l2) = mergeFlat (mergeFlat m l1) l2 := by
  induction l1 generalizing m with
  | nil => rfl
  | cons p rest ih =>
    obtain ⟨c, s⟩ := p
    simp [mergeFlat, ih]

theorem flatten_cons (root : Element) (s : String) (rest : List (Element × String)) :
    flatten ((root, s) :: rest) = root.children.map (fun c => (c, s)) ++ flatten rest := by
  simp [flatten]

theorem mergeList_wellFormed (frags : List (Element × String)) (m : ConfigMerger) :
    mergeList m (frags.map (fun p => (XmlSource.wellFormed p.1, p.2)))
      = Except.ok (mergeFlat m (flatten frags)) := by
  induction frags generalizing m with
  | nil => rfl
  | cons p rest ih =>
    obtain ⟨root, s⟩ := p
    simp only [List.map_cons, mergeList, ConfigMerger.merge, flatten_cons, mergeFlat_append]
    rw [foldl_mergeChild_eq_mergeFlat]
    exact ih _

/-! Conflict-map lemmas for duplicate-free input. -/

/-- The keys of the id-map, in insertion order. -/
def idKeys (m : ConfigMerger) : List (Option String) := m.changes_by_id.map Prod.fst

/-- The keys of the name-map, in insertion order. -/
def nameKeys (m : ConfigMerger) : List (Option String) := m.changes_by_name.map Prod.fst

theorem lookupSrc_eq_none (l : List (Option String × String)) (k : Option String)
    (h : k ∉ l.map Prod.fst) : lookupSrc l k = none := by
  induction l with
  | nil => rfl
  | cons p rest ih =>
    simp only [List.map_cons, List.mem_cons, not_or] at h
    simp only [lookupSrc]
    rw [if_neg (fun heq => h.1 heq.symm)]
    exact ih h.2

theorem checkConflicts_fresh (s : String) (m : ConfigMerger) (c : Element)
    (hd : m.detect_conflicts = true)
    (hi : lookupSrc m.changes_by_id (c.get "id") = none)
    (hn : lookupSrc m.changes_by_name (c.get "name") = none) :
    checkConflicts s m c =
      { m with changes_by_id := m.changes_by_id ++ [(c.get "id", s)],
               changes_by_name := m.changes_by_name ++ [(c.get "name", s)] } := by
  unfold checkConflicts
  simp only [hd, if_true, hi, hn]

theorem mergeFlat_no_detect (cs : List (Element × String)) (m : ConfigMerger)
    (hd : m.detect_conflicts = false) :
    mergeFlat m cs = { m with records := m.records ++ cs.map Prod.fst } := by
  induction cs generalizing m with
  | nil => simp [mergeFlat]
  | cons p rest ih =>
    obtain ⟨c, s⟩ := p
    have hm1 : mergeChild s m c = { m with records := m.records ++ [c] } := by
      unfold mergeChild
      rw [checkConflicts_no_detect s m c hd]
    rw [mergeFlat, hm1, ih { m with records := m.records ++ [c] } hd]
    simp

theorem mergeFlat_fresh (cs : List (Element × String)) (m : ConfigMerger)
    (hd : m.detect_conflicts = true)
    (hids : (idKeys m ++ cs.map (fun p => p.1.get "id")).Nodup)
    (hnames : (nameKeys m ++ cs.map (fun p => p.1.get "name")).Nodup) :
    (mergeFlat m cs).errors = m.errors ∧ (mergeFlat m cs).error_sink = m.error_sink := by
  induction cs generalizing m with
  | nil => exact ⟨rfl, rfl⟩
  | cons p rest ih =>
    obtain ⟨c, s⟩ := p
    have hci : c.get "id" ∉ idKeys m := by
      rw [List.nodup_append] at hids
      exact fun hmem => hids.2.2 hmem (List.mem_cons_self _ _)
    have hcn : c.get "name" ∉ nameKeys m := by
      rw [List.nodup_append] at hnames
      exact fun hmem => hnames.2.2 hmem (List.mem_cons_self _ _)
    have hm1 : mergeChild s m c =
        { m with changes_by_id := m.changes_by_id ++ [(c.get "id", s)],
                 changes_by_name := m.changes_by_name ++ [(c.get "name", s)],
                 records := m.records ++ [c] } := by
      unfold mergeChild
      rw [checkConflicts_fresh s m c hd (lookupSrc_eq_none _ _ hci)
        (lookupSrc_eq_none _ _ hcn)]
    rw [mergeFlat, hm1]
    apply ih
    · exact hd
    · simp only [idKeys, List.map_append, List.map_cons] at hids ⊢
      simpa [List.append_assoc] using hids
    · simp only [nameKeys, List.map_append, List.map_cons] at hnames ⊢
      simpa [List.append_assoc] using hnames

theorem write_of_no_errors (m : ConfigMerger) (h : m.errors = 0) :
    m.write = Except.ok (Element.mk "config" [] m.records, m) := by
  unfold ConfigMerger.write ConfigMerger.write_check_errors
  simp [h]

/-! Gate lemmas for the write operations. -/

theorem write_of_no_detect (m : ConfigMerger) (h : m.detect_conflicts = false) :
    m.write = Except.ok (Element.mk "config" [] m.records, m) := by
  unfold ConfigMerger.write ConfigMerger.write_check_errors
  simp [h]

/-! Concrete fixtures, mirroring the unit tests' fragments. -/

/-- A record as in the tests: id 1234, name TEST_CHANGE, no metadata. -/
def recA : Element := Element.mk "compat-change" [("id", "1234"), ("name", "TEST_CHANGE")] []

/-- A record sharing recA's id but not its name. -/
def recB : Element := Element.mk "compat-change" [("id", "1234"), ("name", "TEST_CHANGE2")] []

/-- A record with fresh id and name. -/
def recC : Element := Element.mk "compat-change" [("id", "1235"), ("name", "TEST_CHANGE2")] []

/-- A record carrying a metadata child. -/
def recMeta : Element :=
  Element.mk "compat-change" [("id", "1234"), ("name", "TEST_CHANGE")]
    [Element.mk "meta-data" [("definedIn", "some.Class"), ("sourcePosition", "file.java:1")] []]

/-- One-record fragments around the records above. -/
def fragA : Element := Element.mk "config" [] [recA]

/-- Fragment holding recB. -/
def fragB : Element := Element.mk "config" [] [recB]

/-- Fragment holding recC. -/
def fragC : Element := Element.mk "config" [] [recC]

/-- A conflict-detecting merger that has merged recA once. -/
def mOne : ConfigMerger := mergeFlat (ConfigMerger.init true) [(recA, "a")]

/-- A conflict-detecting merger that has merged recA then recB: one
accumulated duplicate-id error. -/
def mDup : ConfigMerger := mergeFlat (ConfigMerger.init true) [(recA, "a"), (recB, "b")]

/-- A conflict-detecting merger holding one record with a metadata child. -/
def mMeta : ConfigMerger := mergeFlat (ConfigMerger.init true) [(recMeta, "a")]

/-- C9: calling `write` on a freshly constructed merger, with no preceding
merge calls, produces a document whose root is a `config` element with no
children. -/
theorem write_fresh_is_empty_config (d : Bool) :
    (ConfigMerger.init d).write
      = Except.ok (Element.mk "config" [] [], ConfigMerger.init d) := by
  cases d <;> rfl

/-- C4: a malformed fragment makes `merge` fail immediately with a parse
error; in this state-passing embedding the failing call returns no new
state, so the caller's merger — records, conflict maps, error counter and
sink — is exactly as before the call, and a run aborts at the malformed
fragment; a well-formed fragment is the only way `merge` succeeds. -/
theorem merge_malformed_parse_error (m : ConfigMerger) (s : String) :
    m.merge XmlSource.malformed s = Except.error "ParseError" ∧
    (∀ rest, mergeList m ((XmlSource.malformed, s) :: rest) = Except.error "ParseError") ∧
    (∀ root, m.merge (XmlSource.wellFormed root) s
        = Except.ok (root.children.foldl (mergeChild s) m)) :=
  ⟨rfl, fun _ => rfl, fun _ => rfl⟩

/-- C10: `merge` appends every child of a well-formed fragment's root
regardless of that child's tag, and the device projection emits for each
stored record, in order, an element whose tag is exactly `compat-change`
carrying a copy of that record's attributes — so a merged child with any
other tag is silently renamed to `compat-change` in the device output. -/
theorem device_projection_forces_tag (m : ConfigMerger) (root : Element) (s : String) :
    ∃ m2, m.merge (XmlSource.wellFormed root) s = Except.ok m2 ∧
      m2.records = m.records ++ root.children ∧
      (m2.strip_config_for_device).children.map Element.tag
        = m2.records.map (fun _ => "compat-change") ∧
      (m2.strip_config_for_device).children.map Element.attrib
        = m2.records.map Element.attrib := by
  refine ⟨root.children.foldl (mergeChild s) m, rfl, ?_, ?_, ?_⟩
  · rw [foldl_mergeChild_eq_mergeFlat, mergeFlat_records]
    simp [Function.comp_def]
  · simp [ConfigMerger.strip_config_for_device, Element.tag, Element.children, Function.comp_def]
  · simp [ConfigMerger.strip_config_for_device, Element.attrib, Element.children, Function.comp_def]

/-- C6: every element of the device output carries exactly the attribute
list of the corresponding stored record, position by position — the
projection drops, alters and filters no attribute — both for the
projection itself and for any document produced by `write_device_config`. -/
theorem device_projection_preserves_attributes (m : ConfigMerger) :
    (m.strip_config_for_device).children.map Element.attrib
      = m.records.map Element.attrib ∧
    (∀ d m2, m.write_device_config = Except.ok (d, m2) →
      d.children.map Element.attrib = m.records.map Element.attrib) := by
  constructor
  · simp [ConfigMerger.strip_config_for_device, Element.attrib, Element.children]
  · intro d m2 h
    unfold ConfigMerger.write_device_config at h
    cases hck : m.write_check_errors with
    | error e =>
      rw [hck] at h
      cases h
    | ok u =>
      rw [hck] at h
      simp only [Except.ok.injEq, Prod.mk.injEq] at h
      rw [← h.1]
      simp [ConfigMerger.strip_config_for_device, Element.attrib, Element.children]

/-- Witness for C6 at a merger holding one record with a metadata child. -/
theorem device_projection_preserves_attributes_witness :
    (mMeta.strip_config_for_device).children.map Element.attrib
      = mMeta.records.map Element.attrib :=
  (device_projection_preserves_attributes mMeta).2 mMeta.strip_config_for_device mMeta rfl

/-- C8: the write operations never mutate the accumulated state: on
success each returns the merger unchanged — records with their metadata
children, conflict maps, error counter and sink all identical — and the
document produced is a function of the records accumulated by the merges
made before the call, the device view being a derived copy. -/
theorem writes_do_not_mutate (m : ConfigMerger) :
    (∀ d m2, m.write = Except.ok (d, m2) →
        m2 = m ∧ d = Element.mk "config" [] m.records) ∧
    (∀ d m2, m.write_device_config = Except.ok (d, m2) →
        m2 = m ∧ d = m.strip_config_for_device) := by
  constructor
  · intro d m2 h
    unfold ConfigMerger.write at h
    cases hck : m.write_check_errors with
    | error e =>
      rw [hck] at h
      cases h
    | ok u =>
      rw [hck] at h
      simp only [Except.ok.injEq, Prod.mk.injEq] at h
      exact ⟨h.2.symm, h.1.symm⟩
  · intro d m2 h
    unfold ConfigMerger.write_device_config at h
    cases hck : m.write_check_errors with
    | error e =>
      rw [hck] at h
      cases h
    | ok u =>
      rw [hck] at h
      simp only [Except.ok.injEq, Prod.mk.injEq] at h
      exact ⟨h.2.symm, h.1.symm⟩

/-- Witness for C8 at a merger holding one metadata-carrying record. -/
theorem writes_do_not_mutate_witness :
    mMeta = mMeta ∧ Element.mk "config" [] mMeta.records
      = Element.mk "config" [] mMeta.records :=
  (writes_do_not_mutate mMeta).1 (Element.mk "config" [] mMeta.records) mMeta rfl

/-- C5: a document produced by `write_device_config` never contains a
`meta-data` child (nor any other child element) under any record, even
when the stored record had one. -/
theorem device_config_strips_children (m : ConfigMerger) (d : Element) (m2 : ConfigMerger)
    (h : m.write_device_config = Except.ok (d, m2)) :
    ∀ c ∈ d.children, c.children = [] := by
  unfold ConfigMerger.write_device_config at h
  cases hck : m.write_check_errors with
  | error e =>
    rw [hck] at h
    cases h
  | ok u =>
    rw [hck] at h
    simp only [Except.ok.injEq, Prod.mk.injEq] at h
    rw [← h.1]
    intro c hc
    simp only [ConfigMerger.strip_config_for_device, Element.children, List.mem_map] at hc
    obtain ⟨r, hr, hce⟩ := hc
    rw [← hce]
    rfl

/-- Witness for C5: the sole device record derived from the stored
metadata-carrying record has no children. -/
theorem device_config_strips_children_witness :
    (Element.mk "compat-change" [("id", "1234"), ("name", "TEST_CHANGE")] []).children = [] :=
  device_config_strips_children mMeta mMeta.strip_config_for_device mMeta rfl
    (Element.mk "compat-change" [("id", "1234"), ("name", "TEST_CHANGE")] [])
    (List.mem_cons_self _ _)

/-- C1: with conflict detection enabled and a nonzero accumulated error
counter, `write` and `write_device_config` fail with the aggregation
error, whose message contains the total error count, and no document is
produced (the failing call returns no output value). -/
theorem write_fails_on_accumulated_errors (m : ConfigMerger)
    (hd : m.detect_conflicts = true) (he : m.errors ≠ 0) :
    m.write = Except.error (aggregationMsg m.errors) ∧
    m.write_device_config = Except.error (aggregationMsg m.errors) ∧
    ∃ pre post, aggregationMsg m.errors = pre ++ toString m.errors ++ post := by
  have hck : m.write_check_errors = Except.error (aggregationMsg m.errors) := by
    unfold ConfigMerger.write_check_errors
    simp [hd, he]
  refine ⟨?_, ?_, "Failed to merge due to ", " errors", rfl⟩
  · unfold ConfigMerger.write
    rw [hck]
  · unfold ConfigMerger.write_device_config
    rw [hck]

/-- Witness for C1 at the merger that accumulated one duplicate-id error. -/
theorem write_fails_on_accumulated_errors_witness :
    mDup.detect_conflicts = true ∧ mDup.errors ≠ 0 ∧
      mDup.write = Except.error (aggregationMsg mDup.errors) :=
  ⟨by decide, by decide, (write_fails_on_accumulated_errors mDup (by decide) (by decide)).1⟩

/-- C2: with conflict detection enabled, a merged child whose id is
already in the id-map gets the ID diagnostic appended to the error sink
and the counter incremented, with the map entry not overwritten; the
identical independent check runs for the name; a child duplicating both
id and name raises two diagnostics, id first. -/
theorem merge_duplicate_diagnostics (m : ConfigMerger) (c : Element) (s : String)
    (hd : m.detect_conflicts = true) :
    ((lookupSrc m.changes_by_id (c.get "id")).isSome = true →
        (mergeChild s m c).changes_by_id = m.changes_by_id) ∧
    ((lookupSrc m.changes_by_name (c.get "name")).isSome = true →
        (mergeChild s m c).changes_by_name = m.changes_by_name) ∧
    ((lookupSrc m.changes_by_id (c.get "id")).isSome = true →
      (lookupSrc m.changes_by_name (c.get "name")).isSome = true →
        (mergeChild s m c).errors = m.errors + 2 ∧
        (mergeChild s m c).error_sink
          = m.error_sink ++ [dupIdMsg (c.get "id"), dupNameMsg (c.get "name")]) ∧
    ((lookupSrc m.changes_by_id (c.get "id")).isSome = true →
      lookupSrc m.changes_by_name (c.get "name") = none →
        (mergeChild s m c).errors = m.errors + 1 ∧
        (mergeChild s m c).error_sink = m.error_sink ++ [dupIdMsg (c.get "id")]) ∧
    (lookupSrc m.changes_by_id (c.get "id") = none →
      (lookupSrc m.changes_by_name (c.get "name")).isSome = true →
        (mergeChild s m c).errors = m.errors + 1 ∧
        (mergeChild s m c).error_sink = m.error_sink ++ [dupNameMsg (c.get "name")]) := by
  unfold mergeChild checkConflicts
  cases hid : lookupSrc m.changes_by_id (c.get "id") with
  | some v =>
    cases hname : lookupSrc m.changes_by_name (c.get "name") with
    | some w => simp [hd, hid, hname]
    | none => simp [hd, hid, hname]
  | none =>
    cases hname : lookupSrc m.changes_by_name (c.get "name") with
    | some w => simp [hd, hid, hname]
    | none => simp [hd, hid, hname]

/-- Witness for C2: re-merging recA into the merger that already holds it
duplicates both its id and its name, raising the two diagnostics. -/
theorem merge_duplicate_diagnostics_witness :
    (mergeChild "b" mOne recA).errors = mOne.errors + 2 ∧
    (mergeChild "b" mOne recA).error_sink
      = mOne.error_sink ++ [dupIdMsg (recA.get "id"), dupNameMsg (recA.get "name")] :=
  (merge_duplicate_diagnostics mOne recA "b" (by decide)).2.2.1 (by decide) (by decide)

/-- C3: merging any sequence of well-formed fragments with no duplicate
ids and no duplicate names succeeds, and `write` produces the `config`
document whose children are exactly the concatenation of all fragment
records in merge-then-document order, each stored element — attributes
and metadata children included — preserved as encountered. -/
theorem write_is_concatenation (d : Bool) (frags : List (Element × String))
    (hids : ((flatten frags).map (fun p => p.1.get "id")).Nodup)
    (hnames : ((flatten frags).map (fun p => p.1.get "name")).Nodup) :
    ∃ m, mergeList (ConfigMerger.init d)
        (frags.map (fun p => (XmlSource.wellFormed p.1, p.2))) = Except.ok m ∧
      m.records = (flatten frags).map Prod.fst ∧
      m.write = Except.ok
        (Element.mk "config" [] ((flatten frags).map Prod.fst), m) := by
  have hrec : (mergeFlat (ConfigMerger.init d) (flatten frags)).records
      = (flatten frags).map Prod.fst := by
    rw [mergeFlat_records]
    simp [ConfigMerger.init]
  have herr : (mergeFlat (ConfigMerger.init d) (flatten frags)).errors = 0 := by
    cases d with
    | false =>
      rw [mergeFlat_no_detect _ _ (by rfl)]
      rfl
    | true =>
      exact (mergeFlat_fresh _ _ (by rfl)
        (by simpa [idKeys, ConfigMerger.init] using hids)
        (by simpa [nameKeys, ConfigMerger.init] using hnames)).1
  refine ⟨_, mergeList_wellFormed frags _, hrec, ?_⟩
  rw [write_of_no_errors _ herr, hrec]

/-- Witness for C3 on the two duplicate-free test fragments. -/
theorem write_is_concatenation_witness :
    (((flatten [(fragA, "a"), (fragC, "b")]).map (fun p => p.1.get "id")).Nodup ∧
      ((flatten [(fragA, "a"), (fragC, "b")]).map (fun p => p.1.get "name")).Nodup) ∧
    ∃ m, mergeList (ConfigMerger.init true)
        ([(fragA, "a"), (fragC, "b")].map (fun p => (XmlSource.wellFormed p.1, p.2)))
        = Except.ok m ∧
      m.records = (flatten [(fragA, "a"), (fragC, "b")]).map Prod.fst ∧
      m.write = Except.ok (Element.mk "config" []
        ((flatten [(fragA, "a"), (fragC, "b")]).map Prod.fst), m) :=
  ⟨⟨by decide, by decide⟩,
    write_is_concatenation true [(fragA, "a"), (fragC, "b")] (by decide) (by decide)⟩

/-- C7: with conflict detection disabled, any sequence of well-formed
fragments — ones with duplicate ids or duplicate names included — merges
without error, and `write` succeeds, its output containing every merged
record (both copies of any duplicate), with no deduplication and no
overwriting. -/
theorem no_detect_write_succeeds (m : ConfigMerger) (hd : m.detect_conflicts = false)
    (frags : List (Element × String)) :
    ∃ m2, mergeList m (frags.map (fun p => (XmlSource.wellFormed p.1, p.2)))
        = Except.ok m2 ∧
      m2.records = m.records ++ (flatten frags).map Prod.fst ∧
      m2.write = Except.ok (Element.mk "config" []
        (m.records ++ (flatten frags).map Prod.fst), m2) := by
  have hd2 : (mergeFlat m (flatten frags)).detect_conflicts = false := by
    rw [mergeFlat_detect]
    exact hd
  refine ⟨_, mergeList_wellFormed frags m, ?_, ?_⟩
  · rw [mergeFlat_records]
  · rw [write_of_no_detect _ hd2, mergeFlat_records]

/-- Witness for C7: the same fragment merged twice with detection
disabled, so both the id and the name are duplicated. -/
theorem no_detect_write_succeeds_witness :
    (ConfigMerger.init false).detect_conflicts = false ∧
    ∃ m2, mergeList (ConfigMerger.init false)
        ([(fragA, "a"), (fragA, "b")].map (fun p => (XmlSource.wellFormed p.1, p.2)))
        = Except.ok m2 ∧
      m2.records = (ConfigMerger.init false).records
        ++ (flatten [(fragA, "a"), (fragA, "b")]).map Prod.fst ∧
      m2.write = Except.ok (Element.mk "config" []
        ((ConfigMerger.init false).records
          ++ (flatten [(fragA, "a"), (fragA, "b")]).map Prod.fst), m2) :=
  ⟨by decide,
    no_detect_write_succeeds (ConfigMerger.init false) (by decide) [(fragA, "a"), (fragA, "b")]⟩
